import Mathlib

/-!
Verification development for the socket worker of `dubbo-js`
(source file: `src/packages/dubbo/src/consumer/socket-worker.ts`).

The worker is a single-socket TCP client with bounded fixed-delay
reconnection, heartbeat liveness monitoring, and frame dispatch.  We give a
shallow embedding: the worker's mutable fields become a Lean structure, and
each event handler of the source (`_onConnected`, `_onData`, `_onError`,
`_onClose`, the retry-timer callback, `resetRetry`, `subscribe`) becomes a
case of a step function on that structure.  Interactions with the outside
world (the transport handle, the timers, the observer callbacks, the
heartbeat monitor, the frame-assembler buffer) are recorded as an explicit
list of `Effect`s emitted by each step, in the order the source performs
them.
-/

namespace DubboSocketWorker

/-- Modelled from the spec: the connection state machine states of §4.1
(`PADDING`, `CONNECTED`, `RETRY`, `CLOSED`); the enum itself lives in
`consumer/socket-status.ts`, which is outside the provided sources. -/
inductive SOCKET_STATUS where
  | PADDING
  | CONNECTED
  | CLOSED
  | RETRY
deriving DecidableEq, Repr

/-- `const RETRY_NUM = 20` (socket-worker.ts line 31): the retry budget.
Kept as `Int` because the source value is a JS number that the claims ask
us to show never becomes negative. -/
def RETRY_NUM : Int := 20

/-- `const RETRY_TIME = 3000` (socket-worker.ts line 32): the fixed retry
delay in milliseconds. -/
def RETRY_TIME : Nat := 3000

/-- Modelled from the spec: the wire decoder interface of §6,
`decode(bytes) -> response` (the real decoder is
`serialization/decode-hessian2.ts`, outside the provided sources).  Only
the fact that a decoded application-level result is produced from the
frame bytes matters to the worker, so the response simply carries the
frame it was decoded from. -/
structure DubboResponse where
  bytes : List Nat
deriving DecidableEq, Repr

/-- Modelled from the spec: `decode(bytes) -> response` of §6. -/
def decodeDubboResponse (b : List Nat) : DubboResponse := ⟨b⟩

/-- Observable side effects of a handler invocation, in source order:
observer callbacks (`onConnect`/`onData`/`onClose`), transport actions
(`destroy`, `connect`, `write`), timer actions (`clearTimeout`,
`setTimeout`), frame-assembler actions (`clearBuffer`), and heartbeat
monitor actions (`emit`, `setWriteTimestamp`). -/
inductive Effect where
  | onConnect (pid : Nat) (host : List Char) (port : Int)
  | onData (resp : DubboResponse)
  | onClose (pid : Nat) (host : List Char) (port : Int)
  | socketDestroy
  | socketConnect (host : List Char) (port : Int)
  | socketWrite (bytes : List Nat)
  | clearTimer
  | scheduleTimer (delayMs : Nat)
  | clearBuffer
  | heartbeatEmit
  | heartbeatSetWriteTimestamp
deriving DecidableEq, Repr

/-- The mutable state of one `SocketWorker` (fields of the class, lines
70-80 of the source), together with bookkeeping that makes the resource
claims statable: `pendingTimers` counts scheduled-and-not-yet
fired-or-cancelled retry timers, and `openSockets` counts created-and-not
yet-destroyed-or-closed transport handles.  `timerPending` mirrors whether
the `_retryTimeoutId` field holds a live timer, `socketAssigned` whether
the `_socket` field has been assigned, `socketLive` whether that socket is
still open, and `heartBeat` whether `_heartBeatTimer` has been assigned
(it is `undefined` until the first successful connect).  `buff` is the
frame assembler's internal byte buffer (external `DecodeBuffer`, modelled
from the spec interface of §6: `feed(bytes)` appends, `clear()` empties).
`subscriberId` identifies the current observer (single mutable slot). -/
structure SocketWorker where
  pid : Nat
  host : List Char
  port : Int
  retry : Int
  status : SOCKET_STATUS
  timerPending : Bool
  pendingTimers : Nat
  heartBeat : Bool
  socketAssigned : Bool
  socketLive : Bool
  openSockets : Nat
  buff : List Nat
  subscriberId : Nat
deriving DecidableEq, Repr

/-- `_initSocket` (lines 149-167): destroy the existing socket if the
`_socket` field is set, then create a fresh socket and start a connect
attempt to `(host, port)`.  The destroyed socket stops counting as open
only if it still was open; `destroy()` on an already-closed socket is a
no-op on openness. -/
def initSocket (s : SocketWorker) : SocketWorker × List Effect :=
  let destroyEffs := if s.socketAssigned then [Effect.socketDestroy] else []
  let opens := if s.socketLive then s.openSockets - 1 else s.openSockets
  ({ s with socketAssigned := true, socketLive := true, openSockets := opens + 1 },
   destroyEffs ++ [Effect.socketConnect s.host s.port])

/-- External stimuli a live worker reacts to: the four transport events
(`connect` success, `data`, `error`, `close`), the firing of the pending
retry timer, and the two public mutating calls `resetRetry` and
`subscribe`. -/
inductive Event where
  | connected
  | data (bytes : List Nat)
  | socketError
  | close (hadError : Bool)
  | timerFire
  | resetRetry
  | subscribe (subscriberId : Nat)
deriving DecidableEq, Repr

/-- One handler invocation.  Each case is the corresponding source
handler:

* `connected` — `_onConnected` (lines 169-189): status := CONNECTED,
  retry := RETRY_NUM, a fresh heartbeat monitor is installed, and the
  observer's `onConnect` fires with `{pid, host, port}`.
* `data` — `_onData` (lines 191-194): the raw bytes are fed to the frame
  assembler.
* `socketError` — `_onError` (lines 196-202): log only, nothing changes.
* `close` — `_onClose` (lines 204-233): the socket that emitted `close`
  is no longer open; the assembler buffer is cleared; with retries left,
  status := RETRY and the retry timer is rescheduled
  (`clearTimeout` then `setTimeout`); with the budget exhausted,
  status := CLOSED, the socket is destroyed, and the observer's
  `onClose` fires with `{pid, host, port}`.
* `timerFire` — the `setTimeout` callback (lines 219-222): decrement
  `retry` and run `_initSocket`; a timer that is not pending cannot fire,
  so that case is a no-op.
* `resetRetry` — `resetRetry` (lines 132-137): retry := RETRY_NUM and,
  only when status is CLOSED, `_initSocket` runs.
* `subscribe` — `subscribe` (lines 143-146): replaces the observer. -/
def step (s : SocketWorker) (e : Event) : SocketWorker × List Effect :=
  match e with
  | Event.connected =>
      ({ s with status := SOCKET_STATUS.CONNECTED, retry := RETRY_NUM, heartBeat := true },
       [Effect.onConnect s.pid s.host s.port])
  | Event.data bytes =>
      ({ s with buff := s.buff ++ bytes }, [])
  | Event.socketError => (s, [])
  | Event.close _hadError =>
      let opens := if s.socketLive then s.openSockets - 1 else s.openSockets
      let s1 := { s with socketLive := false, openSockets := opens, buff := [] }
      if (0 : Int) < s1.retry then
        let timers := if s1.timerPending then s1.pendingTimers - 1 else s1.pendingTimers
        ({ s1 with status := SOCKET_STATUS.RETRY, timerPending := true,
                   pendingTimers := timers + 1 },
         [Effect.clearBuffer, Effect.clearTimer, Effect.scheduleTimer RETRY_TIME])
      else
        ({ s1 with status := SOCKET_STATUS.CLOSED },
         [Effect.clearBuffer, Effect.socketDestroy,
          Effect.onClose s.pid s.host s.port])
  | Event.timerFire =>
      if s.timerPending then
        initSocket { s with retry := s.retry - 1, timerPending := false,
                            pendingTimers := s.pendingTimers - 1 }
      else (s, [])
  | Event.resetRetry =>
      let s1 := { s with retry := RETRY_NUM }
      if s1.status = SOCKET_STATUS.CLOSED then initSocket s1 else (s1, [])
  | Event.subscribe n => ({ s with subscriberId := n }, [])

/-- Run a sequence of events from a state, accumulating the emitted
effects in order. -/
def runTrace (s : SocketWorker) (es : List Event) : SocketWorker × List Effect :=
  match es with
  | [] => (s, [])
  | e :: rest =>
      let r1 := step s e
      let r2 := runTrace r1.1 rest
      (r2.1, r1.2 ++ r2.2)

/-- JS `String.prototype.split(':')`.  Strings are modelled throughout as
their character lists so that every operation is structurally recursive
and computes inside the kernel. -/
def splitOnColon : List Char → List (List Char)
  | [] => [[]]
  | c :: rest =>
      if c = ':' then [] :: splitOnColon rest
      else
        match splitOnColon rest with
        | [] => [[c]]
        | h :: t => (c :: h) :: t

/-- The whitespace characters stripped by JS `Number` before parsing. -/
def isJsSpace (c : Char) : Bool :=
  c = ' ' || c = '\t' || c = '\n' || c = '\r'

/-- Strip leading and trailing whitespace, as JS number coercion does. -/
def trimChars (cs : List Char) : List Char :=
  ((cs.dropWhile isJsSpace).reverse.dropWhile isJsSpace).reverse

/-- Parse a non-empty all-digit character list as a natural number;
`none` for anything else. -/
def digitsToNat (cs : List Char) : Option Nat :=
  if cs.isEmpty then none
  else cs.foldl (fun acc c =>
    acc.bind (fun n => if c.isDigit then some (n * 10 + (c.toNat - 48)) else none))
    (some 0)

/-- JS `Number(...)` applied to the port component, restricted to the
integer strings this code path meets: `Number(undefined)` (no `:` in the
url) is NaN, the empty or all-whitespace string is `0`, an optionally
signed digit string is that integer, and anything else is NaN.  `none`
stands for NaN (fractional and exotic numeric literals are outside this
model's scope). -/
def jsNumber : Option (List Char) → Option Int
  | none => none
  | some str =>
    match trimChars str with
    | [] => some 0
    | '-' :: rest => (digitsToNat rest).map (fun n => -(n : Int))
    | '+' :: rest => (digitsToNat rest).map (fun n => (n : Int))
    | cs => (digitsToNat cs).map (fun n => (n : Int))

/-- Node's `net.Socket.connect` port validation (the transport provider of
§6, the runtime this source runs on): the port must be an integer in
`[0, 65535]`, otherwise `connect` throws `ERR_SOCKET_BAD_PORT`
synchronously.  `NaN` is never a legal port. -/
def isLegalPort (port : Int) : Bool := 0 ≤ port && port ≤ 65535

/-- The field initialisation performed by the private constructor (lines
42-68) before `_initSocket` runs: `pid` is the incremented process-wide
counter, `retry := RETRY_NUM`, `status := PADDING`, the observer is the
no-op subscriber, the assembler buffer is empty, and the socket,
heartbeat monitor and retry timer are all unassigned. -/
def mkWorker (pidCounter : Nat) (host : List Char) (port : Int) : SocketWorker :=
  { pid := pidCounter + 1
    host := host
    port := port
    retry := RETRY_NUM
    status := SOCKET_STATUS.PADDING
    timerPending := false
    pendingTimers := 0
    heartBeat := false
    socketAssigned := false
    socketLive := false
    openSockets := 0
    buff := []
    subscriberId := 0 }

/-- `static from(url)` (lines 88-91) followed by the constructor: split the
url on `:`, coerce the port with `Number`, initialise the fields and call
`_initSocket`, whose `socket.connect` throws synchronously
(`ERR_SOCKET_BAD_PORT`) when the port is NaN or outside `[0, 65535]`; in
that case construction fails fast and no worker value is produced.
`pidCounter` is the current value of the module-level `pid` counter. -/
def fromUrl (pidCounter : Nat) (url : List Char) :
    Except String (SocketWorker × List Effect) :=
  match jsNumber (splitOnColon url)[1]? with
  | none => Except.error "ERR_SOCKET_BAD_PORT"
  | some port =>
      if isLegalPort port then
        Except.ok (initSocket
          (mkWorker pidCounter ((splitOnColon url).headD []) port))
      else Except.error "ERR_SOCKET_BAD_PORT"

/-- The request context relevant to `write`: the correlation id, the
worker id stamped onto it (line 106), and the payload bytes.  Modelled
from the spec: §6 Request Context. -/
structure Context where
  requestId : Nat
  pid : Nat
  body : List Nat
deriving DecidableEq, Repr

/-- Modelled from the spec: `encode(request) -> bytes` of §6
(`DubboRequestEncoder`, outside the provided sources). -/
def encodeRequest (ctx : Context) : List Nat := ctx.body

/-- The error message of the JS `TypeError` thrown when `write` touches
`this._heartBeatTimer` while it is still `undefined`. -/
def writeNotConnectedError : String :=
  "TypeError: Cannot read property setWriteTimestamp of undefined"

/-- `write(ctx)` (lines 97-109): it first dereferences
`this._heartBeatTimer.setWriteTimestamp()`; when `_heartBeatTimer` is
still `undefined` (no successful connect has ever happened) this throws a
`TypeError` and nothing further runs — in particular `socket.write` is
never reached.  Otherwise the heartbeat write timestamp is recorded, the
context is stamped with this worker's `pid`, and the encoded request is
written to the socket. -/
def write (s : SocketWorker) (ctx : Context) :
    Except String (Context × List Effect) :=
  if s.heartBeat then
    let ctx1 := { ctx with pid := s.pid }
    Except.ok (ctx1, [Effect.heartbeatSetWriteTimestamp,
                      Effect.socketWrite (encodeRequest ctx1)])
  else Except.error writeNotConnectedError

/-- `_onSubscribeDecodeBuff` (lines 235-245), the per-assembled-frame
callback: a frame the external classifier marks as a heartbeat probe only
pokes the heartbeat monitor (`this._heartBeatTimer.emit()`, a `TypeError`
if the monitor is still unassigned); any other frame is decoded and the
result handed to the observer's `onData`.  The classifier
`HeartBeat.isHeartBeat` is external code (spec §6
`isHeartbeatFrame(bytes) -> bool`), so it is a parameter. -/
def onSubscribeDecodeBuff (isHeartBeat : List Nat → Bool) (s : SocketWorker)
    (frame : List Nat) : Except String (List Effect) :=
  if isHeartBeat frame then
    if s.heartBeat then Except.ok [Effect.heartbeatEmit]
    else Except.error "TypeError: Cannot read property emit of undefined"
  else Except.ok [Effect.onData (decodeDubboResponse frame)]

/-- States reachable by a worker: those produced by a successful
construction, followed by any sequence of handler invocations. -/
inductive Reachable : SocketWorker → Prop
  | init (pidCounter : Nat) (url : List Char) (w : SocketWorker) (effs : List Effect)
      (h : fromUrl pidCounter url = Except.ok (w, effs)) : Reachable w
  | step (s : SocketWorker) (e : Event) (h : Reachable s) : Reachable (step s e).1

/-- A trace in which every connect attempt fails: `n` closure events, each
retry-timer firing interleaved between consecutive failures (the first
failure belongs to the construction-time connect attempt, so it is not
preceded by a timer firing). -/
def failuresTrace : Nat → List Event
  | 0 => []
  | 1 => [Event.close false]
  | n + 2 => Event.close false :: Event.timerFire :: failuresTrace (n + 1)

/-- The worker built by `SocketWorker.from("127.0.0.1:20880")` when the
process-wide `pid` counter is `0` (spec §8 scenario). -/
def w0 : SocketWorker := (initSocket (mkWorker 0 "127.0.0.1".data 20880)).1

/-- A concrete reachable worker in the terminal CLOSED state: `w0` after a
trace that exhausts the whole retry budget. -/
def closedW : SocketWorker := (runTrace w0 (failuresTrace 21)).1

/-- A concrete reachable worker in the CONNECTED state (heartbeat monitor
installed). -/
def wConn : SocketWorker := (step w0 Event.connected).1

/-- Whether an effect is an `onClose` observer notification. -/
def isOnCloseEffect : Effect → Bool
  | Effect.onClose _ _ _ => true
  | _ => false

/-- Number of `onClose` observer notifications in an effect list. -/
def countOnClose (effs : List Effect) : Nat :=
  effs.countP isOnCloseEffect

/-- The inductive invariant of reachable worker states: the pending-timer
count is `1` exactly when the `_retryTimeoutId` field holds a live timer;
the retry budget is never negative, and is at least `1` whenever a timer
is pending (a timer is only ever scheduled after checking
`this._retry > 0`); the open-handle count is `1` exactly when the current
socket is live; and a live socket implies the `_socket` field is
assigned. -/
def Inv (s : SocketWorker) : Prop :=
  s.pendingTimers = (if s.timerPending then 1 else 0)
  ∧ 0 ≤ s.retry
  ∧ (s.timerPending = true → 1 ≤ s.retry)
  ∧ s.openSockets = (if s.socketLive then 1 else 0)
  ∧ (s.socketLive = true → s.socketAssigned = true)

theorem fromUrl_ok (pidCounter : Nat) (url : List Char) (w : SocketWorker)
    (effs : List Effect) (h : fromUrl pidCounter url = Except.ok (w, effs)) :
    ∃ p, jsNumber (splitOnColon url)[1]? = some p
      ∧ isLegalPort p = true
      ∧ (w, effs) =
          initSocket (mkWorker pidCounter ((splitOnColon url).headD []) p) := by
  unfold fromUrl at h
  split at h
  · cases h
  · rename_i p hj
    split at h
    · rename_i hlegal
      injection h with h
      exact ⟨p, hj, hlegal, h.symm⟩
    · cases h

theorem inv_init (pidCounter : Nat) (url : List Char) (w : SocketWorker)
    (effs : List Effect) (h : fromUrl pidCounter url = Except.ok (w, effs)) :
    Inv w := by
  obtain ⟨p, _hj, _hlegal, hmk⟩ := fromUrl_ok pidCounter url w effs h
  have hw : w = (initSocket (mkWorker pidCounter
      ((splitOnColon url).headD []) p)).1 := by rw [← hmk]
  subst hw
  exact ⟨rfl, by show (0 : Int) ≤ RETRY_NUM; decide,
    fun _ => by show (1 : Int) ≤ RETRY_NUM; decide, rfl, fun _ => rfl⟩

theorem inv_step (s : SocketWorker) (e : Event) (h : Inv s) : Inv (step s e).1 := by
  obtain ⟨h1, h2, h3, h4, h5⟩ := h
  cases e with
  | connected =>
      exact ⟨h1, by show (0 : Int) ≤ RETRY_NUM; decide,
        fun _ => by show (1 : Int) ≤ RETRY_NUM; decide, h4, h5⟩
  | data bytes => exact ⟨h1, h2, h3, h4, h5⟩
  | socketError => exact ⟨h1, h2, h3, h4, h5⟩
  | close b =>
      simp only [step]
      split
      · rename_i hretry
        have hr : (0 : Int) < s.retry := hretry
        refine ⟨?_, h2, fun _ => by show (1 : Int) ≤ s.retry; omega, ?_, fun hc => nomatch hc⟩
        · show (if s.timerPending = true then s.pendingTimers - 1 else s.pendingTimers) + 1
            = if true = true then 1 else 0
          cases hb : s.timerPending <;> simp [hb] at h1 ⊢ <;> omega
        · show (if s.socketLive = true then s.openSockets - 1 else s.openSockets)
            = if false = true then 1 else 0
          cases hl : s.socketLive <;> simp [hl] at h4 ⊢ <;> omega
      · refine ⟨h1, h2, h3, ?_, fun hc => nomatch hc⟩
        show (if s.socketLive = true then s.openSockets - 1 else s.openSockets)
          = if false = true then 1 else 0
        cases hl : s.socketLive <;> simp [hl] at h4 ⊢ <;> omega
  | timerFire =>
      simp only [step]
      split
      · rename_i hpend
        have hr1 : 1 ≤ s.retry := h3 hpend
        refine ⟨?_, ?_, ?_, ?_, ?_⟩
        · show s.pendingTimers - 1 = if false = true then 1 else 0
          rw [hpend] at h1
          simp at h1
          simp [h1]
        · show (0 : Int) ≤ s.retry - 1
          omega
        · exact fun hp => nomatch hp
        · show (if s.socketLive = true then s.openSockets - 1 else s.openSockets) + 1
            = if true = true then 1 else 0
          cases hl : s.socketLive <;> simp [hl] at h4 ⊢ <;> omega
        · exact fun _ => rfl
      · exact ⟨h1, h2, h3, h4, h5⟩
  | resetRetry =>
      simp only [step]
      split
      · refine ⟨h1, by show (0 : Int) ≤ RETRY_NUM; decide,
          fun _ => by show (1 : Int) ≤ RETRY_NUM; decide, ?_, fun _ => rfl⟩
        show (if s.socketLive = true then s.openSockets - 1 else s.openSockets) + 1
          = if true = true then 1 else 0
        cases hl : s.socketLive <;> simp [hl] at h4 ⊢ <;> omega
      · exact ⟨h1, by show (0 : Int) ≤ RETRY_NUM; decide,
          fun _ => by show (1 : Int) ≤ RETRY_NUM; decide, h4, h5⟩
  | subscribe n => exact ⟨h1, h2, h3, h4, h5⟩

theorem reachable_inv (s : SocketWorker) (h : Reachable s) : Inv s := by
  induction h with
  | init pidCounter url w effs h => exact inv_init pidCounter url w effs h
  | step s e _h ih => exact inv_step s e ih

theorem heartBeat_init (pidCounter : Nat) (url : List Char) (w : SocketWorker)
    (effs : List Effect) (h : fromUrl pidCounter url = Except.ok (w, effs)) :
    w.heartBeat = false := by
  obtain ⟨p, _hj, _hlegal, hmk⟩ := fromUrl_ok pidCounter url w effs h
  have hw : w = (initSocket (mkWorker pidCounter
      ((splitOnColon url).headD []) p)).1 := by rw [← hmk]
  subst hw
  rfl

theorem heartBeat_step (s : SocketWorker) (e : Event) (he : e ≠ Event.connected) :
    (step s e).1.heartBeat = s.heartBeat := by
  cases e with
  | connected => exact absurd rfl he
  | data bytes => rfl
  | socketError => rfl
  | close b =>
      simp only [step]
      split <;> rfl
  | timerFire =>
      simp only [step]
      split <;> simp [initSocket]
  | resetRetry =>
      simp only [step]
      split <;> simp [initSocket]
  | subscribe n => rfl

theorem heartBeat_runTrace (s : SocketWorker) (es : List Event)
    (h : ∀ e ∈ es, e ≠ Event.connected) :
    (runTrace s es).1.heartBeat = s.heartBeat := by
  induction es generalizing s with
  | nil => rfl
  | cons e rest ih =>
      simp only [runTrace]
      rw [ih (step s e).1 (fun x hx => h x (List.mem_cons_of_mem e hx))]
      exact heartBeat_step s e (h e (List.mem_cons_self e rest))

theorem inv_pendingTimers_le_one (s : SocketWorker) (h : Inv s) :
    s.pendingTimers ≤ 1 := by
  rw [h.1]
  cases hb : s.timerPending <;> simp

theorem inv_openSockets_le_one (s : SocketWorker) (h : Inv s) :
    s.openSockets ≤ 1 := by
  rw [h.2.2.2.1]
  cases hl : s.socketLive <;> simp

set_option maxRecDepth 40000

/-- C1 counterexample: starting from the worker built for
`127.0.0.1:20880`, a trace of exactly 20 connect failures (the initial
attempt plus 19 timer-driven retries, each retry at the fixed delay)
leaves the worker in RETRY with one retry left — the status is not CLOSED
and no `onClose` notification has been delivered, contradicting the claim
that the 20th failure closes the worker. -/
theorem C1_counterexample :
    ¬ ((runTrace w0 (failuresTrace 20)).1.status = SOCKET_STATUS.CLOSED
       ∧ countOnClose (runTrace w0 (failuresTrace 20)).2 = 1) := by
  decide

/-- C1 (amended): for the worker created for `127.0.0.1:20880` whose
transport fails to connect on every attempt, with retries at the fixed
3-second delay, the terminal transition happens at the 21st connect
failure (the construction-time attempt plus the 20 budgeted retries):
after it the status is CLOSED and the observer has received exactly one
`onClose` notification carrying the worker's id, host and port. -/
theorem C1_theorem :
    fromUrl 0 "127.0.0.1:20880".data
      = Except.ok (w0, [Effect.socketConnect "127.0.0.1".data 20880])
    ∧ (runTrace w0 (failuresTrace 21)).1.status = SOCKET_STATUS.CLOSED
    ∧ (runTrace w0 (failuresTrace 21)).2.filter isOnCloseEffect
        = [Effect.onClose w0.pid w0.host w0.port] := by
  refine ⟨rfl, by decide, by decide⟩

/-- C2: a frame the classifier marks as a heartbeat probe never produces
an `onData` observer call (only the heartbeat monitor is poked), and a
frame not so marked is always decoded and delivered to `observer.onData`. -/
theorem C2_theorem (isHeartBeat : List Nat → Bool) (s : SocketWorker)
    (frame : List Nat) (effs : List Effect)
    (h : onSubscribeDecodeBuff isHeartBeat s frame = Except.ok effs) :
    (isHeartBeat frame = true →
      (∀ r, Effect.onData r ∉ effs) ∧ effs = [Effect.heartbeatEmit])
    ∧ (isHeartBeat frame = false →
      effs = [Effect.onData (decodeDubboResponse frame)]) := by
  unfold onSubscribeDecodeBuff at h
  split at h
  · rename_i hb
    split at h
    · injection h with h
      subst h
      refine ⟨fun _ => ⟨fun r hr => by simp at hr, rfl⟩, fun hf => ?_⟩
      rw [hb] at hf
      cases hf
    · cases h
  · rename_i hb
    injection h with h
    subst h
    refine ⟨fun ht => absurd ht hb, fun _ => rfl⟩

/-- C2 witness: a concrete heartbeat frame dispatched on a connected
worker produces no `onData` effect. -/
theorem C2_witness :
    Effect.onData (decodeDubboResponse [2]) ∉ ([Effect.heartbeatEmit] : List Effect) :=
  ((C2_theorem (fun f => f == [1]) wConn [1] [Effect.heartbeatEmit] rfl).1
    rfl).1 (decodeDubboResponse [2])

/-- C3: `resetRetry` always sets the retry budget back to `RETRY_NUM`; it
starts a new connect attempt exactly when the status at the call is
CLOSED, and in every other status it only resets the counter, leaving the
rest of the state untouched and emitting no effect. -/
theorem C3_theorem (s : SocketWorker) :
    (step s Event.resetRetry).1.retry = RETRY_NUM
    ∧ ((∃ hst p, Effect.socketConnect hst p ∈ (step s Event.resetRetry).2)
        ↔ s.status = SOCKET_STATUS.CLOSED)
    ∧ (s.status ≠ SOCKET_STATUS.CLOSED →
        step s Event.resetRetry = ({ s with retry := RETRY_NUM }, [])) := by
  by_cases hc : s.status = SOCKET_STATUS.CLOSED
  · refine ⟨by simp [step, hc, initSocket], ?_, fun hn => absurd hc hn⟩
    constructor
    · intro _
      exact hc
    · intro _
      exact ⟨s.host, s.port, by simp [step, hc, initSocket]⟩
  · refine ⟨by simp [step, hc], ?_, fun _ => by simp [step, hc]⟩
    constructor
    · rintro ⟨hst, p, hm⟩
      simp [step, hc] at hm
    · intro hcc
      exact absurd hcc hc

/-- C3 witness: applied to the freshly constructed worker (status
PADDING), `resetRetry` resets the counter and emits nothing. -/
theorem C3_witness :
    (step w0 Event.resetRetry).1.retry = RETRY_NUM
    ∧ step w0 Event.resetRetry = ({ w0 with retry := RETRY_NUM }, []) :=
  ⟨(C3_theorem w0).1, (C3_theorem w0).2.2 (by decide)⟩

/-- C4 counterexample: `closedW` is a reachable worker whose status is
CLOSED (the `127.0.0.1:20880` worker after its retry budget is
exhausted); calling `resetRetry` on it does not move the status to
PADDING — `_initSocket` never writes `_status`, so the worker stays
CLOSED while the re-initiated connect attempt is in flight. -/
theorem C4_counterexample :
    closedW.status = SOCKET_STATUS.CLOSED
    ∧ (step closedW Event.resetRetry).1.status ≠ SOCKET_STATUS.PADDING := by
  decide

/-- C4 (amended): when `resetRetry` is called while the status is CLOSED,
a connect attempt is eagerly re-initiated but the status remains CLOSED
while that attempt is in flight (it never passes through PADDING); the
worker leaves CLOSED at the attempt's outcome — to CONNECTED if the
connect succeeds, or to RETRY if it fails, since the budget was reset to
the maximum just before the attempt. -/
theorem C4_theorem (s : SocketWorker) (h : s.status = SOCKET_STATUS.CLOSED) :
    (step s Event.resetRetry).1.status = SOCKET_STATUS.CLOSED
    ∧ Effect.socketConnect s.host s.port ∈ (step s Event.resetRetry).2
    ∧ (step (step s Event.resetRetry).1 Event.connected).1.status
        = SOCKET_STATUS.CONNECTED
    ∧ (∀ b, (step (step s Event.resetRetry).1 (Event.close b)).1.status
        = SOCKET_STATUS.RETRY) := by
  refine ⟨by simp [step, h, initSocket], by simp [step, h, initSocket],
    by simp [step, h, initSocket], fun b => ?_⟩
  have h20 : (0 : Int) < RETRY_NUM := by decide
  simp [step, h, initSocket, h20]

/-- C4 witness: the amended statement applied to the concrete reachable
CLOSED worker `closedW`. -/
theorem C4_witness :
    (step closedW Event.resetRetry).1.status = SOCKET_STATUS.CLOSED :=
  (C4_theorem closedW (by decide)).1

/-- C5: every reachable worker has at most one pending retry timer, this
is preserved by any closure event, and whenever the closure handler
schedules a new retry timer it emits the cancellation of the previous
timer (`clearTimeout`) strictly before the new `setTimeout`. -/
theorem C5_theorem (s : SocketWorker) (h : Reachable s) :
    s.pendingTimers ≤ 1
    ∧ (∀ b, (step s (Event.close b)).1.pendingTimers ≤ 1)
    ∧ (∀ b, (0 : Int) < s.retry → (step s (Event.close b)).2
        = [Effect.clearBuffer, Effect.clearTimer, Effect.scheduleTimer RETRY_TIME]) := by
  have hInv := reachable_inv s h
  refine ⟨inv_pendingTimers_le_one s hInv, fun b => ?_, fun b hr => ?_⟩
  · exact inv_pendingTimers_le_one _ (inv_step s (Event.close b) hInv)
  · simp [step, hr]

/-- C5 witness: the bound applied to the freshly constructed worker. -/
theorem C5_witness : w0.pendingTimers ≤ 1 :=
  (C5_theorem w0 (Reachable.init 0 "127.0.0.1:20880".data w0
    [Effect.socketConnect "127.0.0.1".data 20880] rfl)).1

/-- C6: on every reachable worker the retry budget is never negative;
each firing of a pending retry timer decreases it by exactly 1 (and it
stays non-negative); a successful connection and an external reset both
set it back to `RETRY_NUM`; and no other handler — closure, inbound data,
transport error, or observer replacement — changes it. -/
theorem C6_theorem (s : SocketWorker) (h : Reachable s) :
    0 ≤ s.retry
    ∧ (s.timerPending = true →
        (step s Event.timerFire).1.retry = s.retry - 1
        ∧ 0 ≤ (step s Event.timerFire).1.retry)
    ∧ (step s Event.connected).1.retry = RETRY_NUM
    ∧ (step s Event.resetRetry).1.retry = RETRY_NUM
    ∧ (∀ b, (step s (Event.close b)).1.retry = s.retry)
    ∧ (∀ bs, (step s (Event.data bs)).1.retry = s.retry)
    ∧ (step s Event.socketError).1.retry = s.retry
    ∧ (∀ n, (step s (Event.subscribe n)).1.retry = s.retry) := by
  have hInv := reachable_inv s h
  refine ⟨hInv.2.1, fun hp => ⟨?_, ?_⟩, rfl, ?_, fun b => ?_, fun bs => rfl, rfl,
    fun n => rfl⟩
  · simp [step, hp, initSocket]
  · have h1 : 1 ≤ s.retry := hInv.2.2.1 hp
    simp only [step, hp, if_true, initSocket]
    show (0 : Int) ≤ s.retry - 1
    omega
  · simp only [step]
    split <;> simp [initSocket]
  · simp only [step]
    split <;> rfl

/-- C6 witness: the budget facts applied to the freshly constructed
worker. -/
theorem C6_witness : (0 : Int) ≤ w0.retry :=
  (C6_theorem w0 (Reachable.init 0 "127.0.0.1:20880".data w0
    [Effect.socketConnect "127.0.0.1".data 20880] rfl)).1

/-- C7: the transport error handler records the error and nothing else —
after an error event the status, retry budget, timer state, frame
assembler buffer, observer, and indeed the entire worker state are
unchanged, and no effect is emitted. -/
theorem C7_theorem (s : SocketWorker) :
    (step s Event.socketError).1.status = s.status
    ∧ (step s Event.socketError).1.retry = s.retry
    ∧ (step s Event.socketError).1.timerPending = s.timerPending
    ∧ (step s Event.socketError).1.pendingTimers = s.pendingTimers
    ∧ (step s Event.socketError).1.buff = s.buff
    ∧ (step s Event.socketError).1.subscriberId = s.subscriberId
    ∧ (step s Event.socketError).1 = s
    ∧ (step s Event.socketError).2 = [] :=
  ⟨rfl, rfl, rfl, rfl, rfl, rfl, rfl, rfl⟩

/-- C7 witness: the whole-state equality applied to the freshly
constructed worker. -/
theorem C7_witness : (step w0 Event.socketError).1 = w0 :=
  (C7_theorem w0).2.2.2.2.2.2.1

/-- C8 counterexample: `127.0.0.1:70000` has a perfectly numeric port
(`Number` yields 70000), yet construction fails, because the transport's
`connect` rejects any port outside `[0, 65535]` — so "fails if and only
if the port is non-numeric" is false. -/
theorem C8_counterexample :
    jsNumber (splitOnColon "127.0.0.1:70000".data)[1]? = some 70000
    ∧ fromUrl 0 "127.0.0.1:70000".data = Except.error "ERR_SOCKET_BAD_PORT" :=
  ⟨by decide, rfl⟩

/-- C8 (amended): construction from an endpoint string succeeds exactly
when the port component parses to a number that is a legal transport port
(an integer in `[0, 65535]`); the failure is a synchronous throw at
construction time, and on success the returned worker is in PADDING with
a full retry budget and a connect attempt to its host and port has
already been issued. -/
theorem C8_theorem (pidCounter : Nat) (url : List Char) :
    ((∃ w effs, fromUrl pidCounter url = Except.ok (w, effs))
      ↔ (∃ p, jsNumber (splitOnColon url)[1]? = some p ∧ isLegalPort p = true))
    ∧ (∀ w effs, fromUrl pidCounter url = Except.ok (w, effs) →
        w.status = SOCKET_STATUS.PADDING
        ∧ w.retry = RETRY_NUM
        ∧ Effect.socketConnect w.host w.port ∈ effs) := by
  constructor
  · constructor
    · rintro ⟨w, effs, hok⟩
      obtain ⟨p, hj, hlegal, _⟩ := fromUrl_ok pidCounter url w effs hok
      exact ⟨p, hj, hlegal⟩
    · rintro ⟨p, hj, hlegal⟩
      refine ⟨(initSocket (mkWorker pidCounter ((splitOnColon url).headD []) p)).1,
        (initSocket (mkWorker pidCounter ((splitOnColon url).headD []) p)).2, ?_⟩
      unfold fromUrl
      rw [hj]
      simp [hlegal]
  · intro w effs hok
    obtain ⟨p, _hj, _hlegal, hmk⟩ := fromUrl_ok pidCounter url w effs hok
    have hw : w = (initSocket (mkWorker pidCounter
        ((splitOnColon url).headD []) p)).1 := by rw [← hmk]
    have he : effs = (initSocket (mkWorker pidCounter
        ((splitOnColon url).headD []) p)).2 := by rw [← hmk]
    subst hw
    subst he
    exact ⟨rfl, rfl, by simp [initSocket, mkWorker]⟩

/-- C8 witness: the success direction applied to the concrete endpoint
`127.0.0.1:20880`. -/
theorem C8_witness :
    w0.status = SOCKET_STATUS.PADDING ∧ w0.retry = RETRY_NUM
    ∧ Effect.socketConnect w0.host w0.port
        ∈ [Effect.socketConnect "127.0.0.1".data 20880] :=
  (C8_theorem 0 "127.0.0.1:20880".data).2 w0
    [Effect.socketConnect "127.0.0.1".data 20880] rfl

/-- C9: every reachable worker has at most one open transport handle;
running `_initSocket` (the body of every connect attempt — initial,
timer-driven, or reset-driven) preserves that bound, and when a socket
field already exists it emits the forcible destroy strictly before the
new connect. -/
theorem C9_theorem (s : SocketWorker) (h : Reachable s) :
    s.openSockets ≤ 1
    ∧ (initSocket s).1.openSockets ≤ 1
    ∧ (s.socketAssigned = true →
        (initSocket s).2 = [Effect.socketDestroy, Effect.socketConnect s.host s.port])
    ∧ ((initSocket s).2).getLast? = some (Effect.socketConnect s.host s.port) := by
  have hInv := reachable_inv s h
  refine ⟨inv_openSockets_le_one s hInv, ?_, fun ha => by simp [initSocket, ha], ?_⟩
  · have h4 := hInv.2.2.2.1
    show (if s.socketLive = true then s.openSockets - 1 else s.openSockets) + 1 ≤ 1
    cases hl : s.socketLive <;> simp [hl] at h4 ⊢ <;> omega
  · cases ha : s.socketAssigned <;> simp [initSocket, ha]

/-- C9 witness: the bound applied to the freshly constructed worker. -/
theorem C9_witness : w0.openSockets ≤ 1 :=
  (C9_theorem w0 (Reachable.init 0 "127.0.0.1:20880".data w0
    [Effect.socketConnect "127.0.0.1".data 20880] rfl)).1

/-- C10: a worker that has never seen a successful connect (constructed,
then any sequence of non-`connected` events) still has
`_heartBeatTimer === undefined`, so `write` throws the `TypeError` from
dereferencing it and never returns normally — hence no bytes of the
request reach the transport handle. -/
theorem C10_theorem (pidCounter : Nat) (url : List Char) (w : SocketWorker)
    (effs : List Effect) (es : List Event) (ctx : Context)
    (hok : fromUrl pidCounter url = Except.ok (w, effs))
    (hnc : ∀ e ∈ es, e ≠ Event.connected) :
    write (runTrace w es).1 ctx = Except.error writeNotConnectedError
    ∧ ∀ r, write (runTrace w es).1 ctx ≠ Except.ok r := by
  have hb : (runTrace w es).1.heartBeat = false := by
    rw [heartBeat_runTrace w es hnc, heartBeat_init pidCounter url w effs hok]
  refine ⟨by simp [write, hb], fun r => by simp [write, hb]⟩

/-- C10 witness: writing right after the first connect failure of the
concrete `127.0.0.1:20880` worker throws the not-connected `TypeError`. -/
theorem C10_witness :
    write (runTrace w0 [Event.close false]).1 ⟨1, 0, []⟩
      = Except.error writeNotConnectedError :=
  (C10_theorem 0 "127.0.0.1:20880".data w0
    [Effect.socketConnect "127.0.0.1".data 20880] [Event.close false] ⟨1, 0, []⟩
    rfl (by decide)).1

end DubboSocketWorker
